import Mathlib

/-!
Shallow embedding of the three scripts of the vector-search demo repository:
the index provisioner (create_vector_search_index.py), the seeder
(gen_text_embedding.py), and the interactive search UI (vector_search_chatbot.py).

The external services (Azure OpenAI embeddings, MongoDB Atlas vector search)
are modelled as oracles: each handler takes the outcome the service would
return and additionally reports the list of network operations it issues, so
that claims about which calls are (not) made become provable statements.
-/

/-- Process environment: a map from variable names to their values (`none`
when the variable is unset), mirroring `os.environ`. -/
def Env : Type := String → Option String

/-- Python truthiness of `os.environ.get(var)`: both an unset variable and a
variable set to the empty string are falsy, hence counted missing by
`[var for var in required_vars if not os.environ.get(var)]`. -/
def envTruthy : Option String → Bool
  | none => false
  | some s => !s.isEmpty

/-- `os.environ[key] = val`. -/
def updateEnv (env : Env) (key val : String) : Env :=
  fun k => if k = key then some val else env k

/-- The whitespace characters removed by Python `str.strip()` (the ASCII
ones: space, tab, newline, carriage return, vertical tab, form feed). -/
def isPyWhitespace (c : Char) : Bool :=
  c = ' ' || c = '\t' || c = '\n' || c = '\r' || c = '\x0b' || c = '\x0c'

/-- Python `s.strip()`: remove leading and trailing whitespace. -/
def pyStrip (s : String) : String :=
  String.mk (((s.data.dropWhile isPyWhitespace).reverse.dropWhile isPyWhitespace).reverse)

/-- A document as built by the seeder and displayed by the UI: a
`page_content` string plus a string-to-string `metadata` mapping. -/
structure Document where
  page_content : String
  metadata : List (String × String)
deriving DecidableEq, Repr

/-- Python `doc.metadata.get(key, default)`. -/
def metadataGet (m : List (String × String)) (key deflt : String) : String :=
  match m.lookup key with
  | some v => v
  | none => deflt

/-- The network operations the scripts can issue against the external
services.  Handlers return the list of operations they performed so that
"no network call is made" is a provable statement. -/
inductive NetworkCall where
  | similaritySearch (query : String) (k : Nat)
  | addDocuments (docs : List Document) (ids : List String)
  | embedQuery (text : String)
  | ping
  | createIndex (dimensions : Nat)
deriving DecidableEq, Repr

/-- A visible conversation entry: Gradio chatbot pairs `[user, bot]`, where
the user side is `None` for the welcome message. -/
abbrev ChatEntry := Option String × String

/-- One formatted block of the results list:
`**Document i**` / `**Content:** ...` / `**Source:** ...` as concatenated by
the loop in `search_documents` (vector_search_chatbot.py lines 86-90). -/
def formatDoc (i : Nat) (doc : Document) : String :=
  "**Document " ++ toString i ++ "**\n" ++
  "**Content:** " ++ doc.page_content ++ "\n" ++
  "**Source:** " ++ metadataGet doc.metadata "source" "Unknown" ++ "\n\n"

/-- The full response text for a non-empty result list, with documents
numbered from 1 as by `enumerate(results, 1)`. -/
def formatResults (results : List Document) : String :=
  "Here\x27s what I found:\n\n" ++
  String.join ((results.enumFrom 1).map fun p => formatDoc p.1 p.2)

/-- `search_documents(query, chat_history, num_results)` of
vector_search_chatbot.py lines 72-96.  The similarity-search outcome is the
oracle parameter `outcome`: `Except.error e` models the service raising an
exception with text `e` (caught by the `except` clause), `Except.ok results`
a normal return.  Python blank tests `not query.strip()` are modelled as
`pyStrip query = ""`.  The second component is the list of network calls made. -/
def search_documents (query : String) (chat_history : List ChatEntry)
    (num_results : Nat) (outcome : Except String (List Document)) :
    List ChatEntry × List NetworkCall :=
  if pyStrip query = "" then
    (chat_history ++ [(some query, "Please enter a valid search query")], [])
  else
    match outcome with
    | .error e =>
        (chat_history ++ [(some query, "I encountered an error while searching: " ++ e)],
         [.similaritySearch query num_results])
    | .ok results =>
        if results.isEmpty then
          (chat_history ++ [(some query, "I couldn\x27t find any relevant information for your query.")],
           [.similaritySearch query num_results])
        else
          (chat_history ++ [(some query, formatResults results)],
           [.similaritySearch query num_results])

/-- `on_submit(message, chat_history, num_results)` of
vector_search_chatbot.py lines 144-147: the handler bound to both the submit
button and the textbox submit event.  Returns the pair written back to
`(query_input, chatbot)` together with the network calls made. -/
def on_submit (message : String) (chat_history : List ChatEntry)
    (num_results : Nat) (outcome : Except String (List Document)) :
    (String × List ChatEntry) × List NetworkCall :=
  if pyStrip message = "" then
    (("", chat_history), [])
  else
    let r := search_documents message chat_history num_results outcome
    (("", r.1), r.2)

/-- `get_welcome_message()` of vector_search_chatbot.py lines 137-138. -/
def get_welcome_message : List ChatEntry :=
  [(none, "👋 Hello! I\x27m your vector search assistant. Ask me something about the documents in the database!")]

/-- The clear-button handler, vector_search_chatbot.py lines 162-166: the
bound lambda takes no inputs and overwrites the chatbot component, so the
result ignores the current conversation `current`; it touches no network
service. -/
def clear_chat (_current : List ChatEntry) : List ChatEntry × List NetworkCall :=
  (get_welcome_message, [])

/-- Static configuration of a Gradio slider. -/
structure SliderConfig where
  minimum : Nat
  maximum : Nat
  value : Nat
  step : Nat
deriving DecidableEq, Repr

/-- `num_results_slider` of vector_search_chatbot.py lines 120-126:
minimum=1, maximum=10, value=3, step=1. -/
def num_results_slider : SliderConfig := ⟨1, 10, 3, 1⟩

/-- The UI components that take part in event wiring. -/
inductive Component where
  | query_input
  | chatbot
  | num_results_slider
  | submit_button
  | clear_button
deriving DecidableEq, Repr

/-- An event binding: which components are read as inputs on each firing and
which receive the outputs. -/
structure EventBinding where
  inputs : List Component
  outputs : List Component
deriving DecidableEq, Repr

/-- `submit_button.click(on_submit, inputs=..., outputs=...)`,
vector_search_chatbot.py lines 149-153. -/
def submit_click_event : EventBinding :=
  ⟨[.query_input, .chatbot, .num_results_slider], [.query_input, .chatbot]⟩

/-- `query_input.submit(on_submit, inputs=..., outputs=...)`,
vector_search_chatbot.py lines 155-159. -/
def query_submit_event : EventBinding :=
  ⟨[.query_input, .chatbot, .num_results_slider], [.query_input, .chatbot]⟩

/-- `clear_button.click(lambda: get_welcome_message(), outputs=[chatbot])`,
vector_search_chatbot.py lines 163-166: no inputs are read. -/
def clear_click_event : EventBinding :=
  ⟨[], [.chatbot]⟩

/-- How a script run can end during its startup/validation phase. -/
inductive Outcome where
  | exitReport (code : Nat) (missing : List String)
  | uncaughtKeyError (key : String)
  | proceed
deriving DecidableEq, Repr

/-- The observable result of a script startup: how it ended, how many
interactive secret prompts it issued, the environment it leaves behind, and
the network calls made (empty before any exit). -/
structure StartupResult where
  outcome : Outcome
  prompts : Nat
  envOut : Env
  calls : List NetworkCall

/-- `required_vars` of vector_search_chatbot.py lines 17-23 (includes the
API key). -/
def chatbot_required_vars : List String :=
  ["AZURE_OPENAI_ENDPOINT", "AZURE_OPENAI_DEPLOYMENT_NAME",
   "AZURE_OPENAI_API_VERSION", "AZURE_OPENAI_API_KEY",
   "MONGODB_ATLAS_CLUSTER_URI"]

/-- `required_vars` of gen_text_embedding.py lines 18-23 (does not include
the API key, which is prompted for instead). -/
def seeder_required_vars : List String :=
  ["AZURE_OPENAI_ENDPOINT", "AZURE_OPENAI_DEPLOYMENT_NAME",
   "AZURE_OPENAI_API_VERSION", "MONGODB_ATLAS_CLUSTER_URI"]

/-- `missing_vars = [var for var in required_vars if not os.environ.get(var)]`. -/
def missing_vars (env : Env) (required : List String) : List String :=
  required.filter (fun v => !envTruthy (env v))

/-- Startup of the UI script, vector_search_chatbot.py lines 17-70: if any
required variable is missing it logs the enumerated missing list and exits
with status 1 before any client is constructed (no network call); otherwise
it initializes the clients, the first network operation being the MongoDB
`ping` (line 48).  The UI script contains no interactive prompt. -/
def chatbot_startup (env : Env) : StartupResult :=
  let missing := missing_vars env chatbot_required_vars
  if missing.isEmpty then
    ⟨.proceed, 0, env, [.ping]⟩
  else
    ⟨.exitReport 1 missing, 0, env, []⟩

/-- Startup of the seeder, gen_text_embedding.py lines 17-66: validate the
four required variables (exit 1 reporting exactly the missing ones, no
network call), then prompt once for the API key when `os.environ.get` finds
it falsy (lines 30-31), then issue the test embedding request (line 45) and
the MongoDB ping (line 62).  `secret` is the value the user would type at the
prompt. -/
def seeder_startup (env : Env) (secret : String) : StartupResult :=
  let missing := missing_vars env seeder_required_vars
  if missing.isEmpty then
    if envTruthy (env "AZURE_OPENAI_API_KEY") then
      ⟨.proceed, 0, env, [.embedQuery "Test embedding", .ping]⟩
    else
      ⟨.proceed, 1, updateEnv env "AZURE_OPENAI_API_KEY" secret,
       [.embedQuery "Test embedding", .ping]⟩
  else
    ⟨.exitReport 1 missing, 0, env, []⟩

/-- The provisioner accesses `os.environ["AZURE_OPENAI_ENDPOINT"]`,
`os.environ["AZURE_OPENAI_DEPLOYMENT_NAME"]` and
`os.environ["AZURE_OPENAI_API_VERSION"]` directly
(create_vector_search_index.py lines 15-19) with no prior validation: the
first unset one raises an uncaught `KeyError` (non-zero exit via traceback,
no enumeration of missing keys).  Note that unlike the falsy test, the
subscript raises only when the variable is truly unset, not when empty. -/
def provisioner_env_access (env1 : Env) : Outcome :=
  match env1 "AZURE_OPENAI_ENDPOINT" with
  | none => .uncaughtKeyError "AZURE_OPENAI_ENDPOINT"
  | some _ =>
    match env1 "AZURE_OPENAI_DEPLOYMENT_NAME" with
    | none => .uncaughtKeyError "AZURE_OPENAI_DEPLOYMENT_NAME"
    | some _ =>
      match env1 "AZURE_OPENAI_API_VERSION" with
      | none => .uncaughtKeyError "AZURE_OPENAI_API_VERSION"
      | some _ => .proceed

/-- Startup of the index provisioner, create_vector_search_index.py: it
performs no required-variable validation; it first prompts for the API key
when `os.environ.get` finds it falsy (lines 10-11), then constructs the
clients (the direct environment subscripts may raise `KeyError`), and on
success its one network operation is `create_vector_search_index(dimensions=1536)`
(line 40). -/
def provisioner_startup (env : Env) (secret : String) : StartupResult :=
  let pr := if envTruthy (env "AZURE_OPENAI_API_KEY") then (env, 0)
            else (updateEnv env "AZURE_OPENAI_API_KEY" secret, 1)
  ⟨provisioner_env_access pr.1, pr.2, pr.1,
   match provisioner_env_access pr.1 with
   | .proceed => [.createIndex 1536]
   | _ => []⟩

/-- The fixed in-memory document set of gen_text_embedding.py lines 88-129. -/
def documents : List Document :=
  [⟨"I had chocalate chip pancakes and scrambled eggs for breakfast this morning.",
    [("source", "tweet")]⟩,
   ⟨"The weather forecast for tomorrow is cloudy and overcast, with a high of 62 degrees.",
    [("source", "news")]⟩,
   ⟨"Building an exciting new project with LangChain - come check it out!",
    [("source", "tweet")]⟩,
   ⟨"Robbers broke into the city bank and stole $1 million in cash.",
    [("source", "news")]⟩,
   ⟨"Wow! That was an amazing movie. I can\x27t wait to see it again.",
    [("source", "tweet")]⟩,
   ⟨"Is the new iPhone worth the price? Read this review to find out.",
    [("source", "website")]⟩,
   ⟨"The top 10 soccer players in the world right now.",
    [("source", "website")]⟩,
   ⟨"LangGraph is the best framework for building stateful, agentic applications!",
    [("source", "tweet")]⟩,
   ⟨"The stock market is down 500 points today due to fears of a recession.",
    [("source", "news")]⟩,
   ⟨"I have a bad feeling I am going to get deleted :(",
    [("source", "tweet")]⟩]

/-- `uuids = [str(uuid4()) for _ in range(len(documents))]`
(gen_text_embedding.py line 132): one fresh identifier per document, drawn
from the generator `gen` that models `uuid4` (distinct draws collide only
with negligible probability, modelled by an injectivity hypothesis where
needed). -/
def seeder_uuids (gen : Nat → String) : List String :=
  (List.range documents.length).map gen

/-- The network operations of the seeder main phase on the success path,
gen_text_embedding.py lines 134-143: one `add_documents(documents, ids=uuids)`
upsert followed by one smoke-test `similarity_search` with the fixed query
and k=2. -/
def seeder_main_calls (gen : Nat → String) : List NetworkCall :=
  [.addDocuments documents (seeder_uuids gen),
   .similaritySearch "What\x27s the weather like?" 2]

/-- Helper: whenever the query is non-blank, `search_documents` issues
exactly one similarity-search call, with the query and k it was given. -/
theorem search_documents_calls (q : String) (h : List ChatEntry) (k : Nat)
    (o : Except String (List Document)) (hq : ¬ pyStrip q = "") :
    (search_documents q h k o).2 = [NetworkCall.similaritySearch q k] := by
  cases o with
  | error e => simp [search_documents, hq]
  | ok results =>
    by_cases hr : results.isEmpty <;> simp [search_documents, hq, hr]

/-- C1 counterexample: submitting the whitespace-only query " " through the
UI handler makes no network call, but also appends no entry at all — the
conversation stays at its prior length (here 0), not prior length + 1 with
an instructional message. -/
theorem C1_counterexample :
    on_submit " " [] 3 (Except.ok []) = (("", []), []) ∧
    ((on_submit " " [] 3 (Except.ok [])).1.2).length = 0 := by
  constructor <;> rfl

/-- C1 (amended): a blank (empty or whitespace-only) submission through the
UI is rejected locally — no similarity-search call is made and the input box
is cleared — but the visible conversation is left unchanged: no new entry is
appended.  (The instructional "Please enter a valid search query" entry
exists only in `search_documents`, which the UI handler never reaches with a
blank message.) -/
theorem C1_blank_submit_unchanged (m : String) (h : List ChatEntry) (k : Nat)
    (o : Except String (List Document)) (hb : pyStrip m = "") :
    on_submit m h k o = (("", h), []) := by
  simp [on_submit, hb]

theorem C1_witness :
    pyStrip "  " = "" ∧
    on_submit "  " [(some "a", "b")] 5 (Except.error "x") = (("", [(some "a", "b")]), []) :=
  ⟨by decide, C1_blank_submit_unchanged "  " [(some "a", "b")] 5 (Except.error "x") (by decide)⟩

/-- C3: any exception raised by the similarity search during a UI search
request (non-blank query, so the search is actually attempted) is caught:
`search_documents` returns normally — the process does not terminate — with
the conversation extended by exactly one new entry whose text contains the
error text `e`. -/
theorem C3_error_caught (q : String) (h : List ChatEntry) (k : Nat) (e : String)
    (hq : ¬ pyStrip q = "") :
    (search_documents q h k (Except.error e)).1 =
      h ++ [(some q, "I encountered an error while searching: " ++ e)] ∧
    (∃ pre post, "I encountered an error while searching: " ++ e = pre ++ e ++ post) := by
  constructor
  · simp [search_documents, hq]
  · exact ⟨"I encountered an error while searching: ", "", by simp⟩

theorem C3_witness :
    ¬ (pyStrip "why" = "") ∧
    (search_documents "why" [] 3 (Except.error "boom")).1 =
      [(some "why", "I encountered an error while searching: boom")] := by
  refine ⟨by decide, ?_⟩
  have h := C3_error_caught "why" [] 3 "boom" (by decide)
  simpa using h.1

/-- C5: a successful search with an empty result list (non-blank query)
appends exactly one new entry, the fixed "nothing found" message — not the
error-branch message — and the similarity search was indeed performed (one
call), so the empty result is a normal return, not an exception. -/
theorem C5_empty_results (q : String) (h : List ChatEntry) (k : Nat)
    (hq : ¬ pyStrip q = "") :
    search_documents q h k (Except.ok []) =
      (h ++ [(some q, "I couldn\x27t find any relevant information for your query.")],
       [NetworkCall.similaritySearch q k]) := by
  simp [search_documents, hq]

theorem C5_witness :
    ¬ (pyStrip "weather" = "") ∧
    search_documents "weather" [(some "p", "q")] 2 (Except.ok []) =
      ([(some "p", "q"),
        (some "weather", "I couldn\x27t find any relevant information for your query.")],
       [NetworkCall.similaritySearch "weather" 2]) := by
  refine ⟨by decide, ?_⟩
  have h := C5_empty_results "weather" [(some "p", "q")] 2 (by decide)
  simpa using h

/-- C9: in every branch of `search_documents` — blank query, caught
exception, empty results, non-empty results — the returned conversation is
the input `chat_history` with every prior entry unchanged, followed by
exactly one new `[query, response]` pair at the end. -/
theorem C9_append_frame (q : String) (h : List ChatEntry) (k : Nat)
    (o : Except String (List Document)) :
    ∃ resp, (search_documents q h k o).1 = h ++ [(some q, resp)] := by
  by_cases hb : pyStrip q = ""
  · exact ⟨"Please enter a valid search query", by simp [search_documents, hb]⟩
  · cases o with
    | error e =>
      exact ⟨"I encountered an error while searching: " ++ e,
        by simp [search_documents, hb]⟩
    | ok results =>
      by_cases hr : results.isEmpty
      · exact ⟨"I couldn\x27t find any relevant information for your query.",
          by simp [search_documents, hb, hr]⟩
      · exact ⟨formatResults results, by simp [search_documents, hb, hr]⟩

/-- C10: for every input, `on_submit` returns the empty string as its first
output (so the query textbox is cleared after every submission), and the
conversation output is the unchanged history when the message is blank, and
otherwise the result of the search. -/
theorem C10_clears_input (m : String) (h : List ChatEntry) (k : Nat)
    (o : Except String (List Document)) :
    (on_submit m h k o).1.1 = "" ∧
    (on_submit m h k o).1.2 =
      (if pyStrip m = "" then h else (search_documents m h k o).1) := by
  by_cases hb : pyStrip m = "" <;> simp [on_submit, hb]

/-- C4: triggering the clear action from any conversation state resets the
visible conversation to exactly one entry — the fixed welcome message — and
issues no operation against the underlying collection. -/
theorem C4_clear_resets (h : List ChatEntry) :
    clear_chat h = (get_welcome_message, []) ∧
    (clear_chat h).1.length = 1 :=
  ⟨rfl, rfl⟩

/-- C6: the number-of-results slider is an integer slider with minimum 1,
maximum 10, default value 3, step 1; it is listed among the inputs of both
submission events (hence read afresh at each submission), and the value `k`
a submission is given is exactly the `k` of the similarity-search call that
submission makes. -/
theorem C6_num_results (q : String) (h : List ChatEntry) (k : Nat)
    (o : Except String (List Document)) (hq : ¬ pyStrip q = "") :
    num_results_slider.minimum = 1 ∧ num_results_slider.maximum = 10 ∧
    num_results_slider.value = 3 ∧ num_results_slider.step = 1 ∧
    Component.num_results_slider ∈ submit_click_event.inputs ∧
    Component.num_results_slider ∈ query_submit_event.inputs ∧
    (on_submit q h k o).2 = [NetworkCall.similaritySearch q k] := by
  refine ⟨rfl, rfl, rfl, rfl, by decide, by decide, ?_⟩
  have hc := search_documents_calls q h k o hq
  simp [on_submit, hq, hc]

theorem C6_witness :
    ¬ (pyStrip "hello" = "") ∧
    (on_submit "hello" [] 7 (Except.ok [])).2 = [NetworkCall.similaritySearch "hello" 7] := by
  refine ⟨by decide, ?_⟩
  exact (C6_num_results "hello" [] 7 (Except.ok []) (by decide)).2.2.2.2.2.2

/-- Concrete environment for the configuration-validation claim: every
required variable is set except AZURE_OPENAI_ENDPOINT. -/
def c2_env : Env := fun k =>
  if k = "AZURE_OPENAI_ENDPOINT" then none
  else if k = "AZURE_OPENAI_DEPLOYMENT_NAME" then some "dep"
  else if k = "AZURE_OPENAI_API_VERSION" then some "v1"
  else if k = "AZURE_OPENAI_API_KEY" then some "sk-test"
  else if k = "MONGODB_ATLAS_CLUSTER_URI" then some "mongodb-uri"
  else none

/-- C2: with AZURE_OPENAI_ENDPOINT missing, the seeder and the UI exit with
status 1 reporting exactly the missing key and make no network call, but the
index provisioner — which performs no validation — dies with an uncaught
KeyError and never produces an enumerated missing-key report, contradicting
the uniform claim for all three scripts. -/
theorem C2_provisioner_no_validation :
    (seeder_startup c2_env "s").outcome = Outcome.exitReport 1 ["AZURE_OPENAI_ENDPOINT"] ∧
    (seeder_startup c2_env "s").calls = [] ∧
    (chatbot_startup c2_env).outcome = Outcome.exitReport 1 ["AZURE_OPENAI_ENDPOINT"] ∧
    (chatbot_startup c2_env).calls = [] ∧
    (provisioner_startup c2_env "s").outcome = Outcome.uncaughtKeyError "AZURE_OPENAI_ENDPOINT" ∧
    ∀ code missing, (provisioner_startup c2_env "s").outcome ≠ Outcome.exitReport code missing := by
  refine ⟨by decide, by decide, by decide, by decide, by decide, ?_⟩
  intro code missing hcontra
  have heq : (provisioner_startup c2_env "s").outcome =
      Outcome.uncaughtKeyError "AZURE_OPENAI_ENDPOINT" := by decide
  rw [heq] at hcontra
  exact Outcome.noConfusion hcontra

/-- C7: when the API key is absent from the environment, the provisioner,
and the seeder provided its own required variables pass validation, prompt
interactively exactly once and leave the key populated for the remainder of
the process, while the UI script exits non-zero reporting the key among its
missing variables and issues no prompt (it has no prompt path at all). -/
theorem C7_api_key_prompt (env : Env) (secret : String)
    (hkey : envTruthy (env "AZURE_OPENAI_API_KEY") = false)
    (hseed : (missing_vars env seeder_required_vars).isEmpty = true) :
    (provisioner_startup env secret).prompts = 1 ∧
    (provisioner_startup env secret).envOut "AZURE_OPENAI_API_KEY" = some secret ∧
    (seeder_startup env secret).prompts = 1 ∧
    (seeder_startup env secret).envOut "AZURE_OPENAI_API_KEY" = some secret ∧
    (chatbot_startup env).prompts = 0 ∧
    (chatbot_startup env).outcome = Outcome.exitReport 1 (missing_vars env chatbot_required_vars) ∧
    "AZURE_OPENAI_API_KEY" ∈ missing_vars env chatbot_required_vars := by
  have hmem : "AZURE_OPENAI_API_KEY" ∈ missing_vars env chatbot_required_vars := by
    simp [missing_vars, List.mem_filter, hkey]
    decide
  have hne : (missing_vars env chatbot_required_vars).isEmpty = false := by
    cases hm : missing_vars env chatbot_required_vars with
    | nil => rw [hm] at hmem; cases hmem
    | cons a l => rfl
  refine ⟨?_, ?_, ?_, ?_, ?_, ?_, hmem⟩
  · simp [provisioner_startup, hkey]
  · simp [provisioner_startup, hkey, updateEnv]
  · simp [seeder_startup, hseed, hkey]
  · simp [seeder_startup, hseed, hkey, updateEnv]
  · unfold chatbot_startup
    by_cases hc : (missing_vars env chatbot_required_vars).isEmpty <;> simp [hc]
  · simp [chatbot_startup, hne]

/-- Concrete environment for the prompt claim: everything set except the API
key. -/
def c7_env : Env := fun k =>
  if k = "AZURE_OPENAI_API_KEY" then none else some "v"

theorem C7_witness :
    envTruthy (c7_env "AZURE_OPENAI_API_KEY") = false ∧
    (missing_vars c7_env seeder_required_vars).isEmpty = true ∧
    ((provisioner_startup c7_env "tok").prompts = 1 ∧
     (provisioner_startup c7_env "tok").envOut "AZURE_OPENAI_API_KEY" = some "tok" ∧
     (seeder_startup c7_env "tok").prompts = 1 ∧
     (seeder_startup c7_env "tok").envOut "AZURE_OPENAI_API_KEY" = some "tok" ∧
     (chatbot_startup c7_env).prompts = 0 ∧
     (chatbot_startup c7_env).outcome = Outcome.exitReport 1 (missing_vars c7_env chatbot_required_vars) ∧
     "AZURE_OPENAI_API_KEY" ∈ missing_vars c7_env chatbot_required_vars) :=
  ⟨by decide, by decide, C7_api_key_prompt c7_env "tok" (by decide) (by decide)⟩

/-- C8: on the success path the seeder upserts exactly the fixed 10-document
in-memory set, positionally paired with one freshly generated identifier per
document (and the ids are pairwise distinct whenever the generator draws
are), then runs exactly one smoke-test similarity search with query
"What's the weather like?" and k=2. -/
theorem C8_seeder_upsert (gen : Nat → String)
    (hinj : ∀ i ∈ List.range documents.length, ∀ j ∈ List.range documents.length,
      gen i = gen j → i = j) :
    documents.length = 10 ∧
    (seeder_uuids gen).length = documents.length ∧
    seeder_main_calls gen =
      [NetworkCall.addDocuments documents (seeder_uuids gen),
       NetworkCall.similaritySearch "What\x27s the weather like?" 2] ∧
    (seeder_main_calls gen).countP
      (fun c => match c with
        | NetworkCall.similaritySearch _ _ => true
        | _ => false) = 1 ∧
    (seeder_uuids gen).Nodup := by
  refine ⟨rfl, by simp [seeder_uuids], rfl, rfl, ?_⟩
  exact List.Nodup.map_on hinj (List.nodup_range documents.length)

theorem C8_witness :
    (∀ i ∈ List.range documents.length, ∀ j ∈ List.range documents.length,
       String.mk (List.replicate i 'a') = String.mk (List.replicate j 'a') → i = j) ∧
    (seeder_uuids (fun n => String.mk (List.replicate n 'a'))).Nodup :=
  ⟨by decide,
   (C8_seeder_upsert (fun n => String.mk (List.replicate n 'a')) (by decide)).2.2.2.2⟩
